import Mathlib

/-!
Shallow embedding of the M5WiFiDebugger access-point subsystem
(src/unnamed/part_000, second revision starting at line 2217, and the
Honeypot class of src/unnamed/part_004).

Pure Lean translations of the C++ functions; driver calls are modelled as
an explicit environment record plus a list of emitted driver actions.
-/

namespace M5WiFiDebugger

/-- `enum APMode` (part_000 lines 31-37): OFF, NORMAL, REPEATER, HIDDEN, HONEYPOT. -/
inductive APMode where
  | off
  | normal
  | repeater
  | hidden
  | honeypot
deriving DecidableEq, Repr

/-- A MAC address: six bytes (`uint8_t mac[6]`). -/
structure Mac where
  b0 : Fin 256
  b1 : Fin 256
  b2 : Fin 256
  b3 : Fin 256
  b4 : Fin 256
  b5 : Fin 256
deriving DecidableEq, Repr

/-- One uppercase hex digit, as produced by `sprintf` with `%02X`. -/
def hexDigit (n : Nat) : Char :=
  if n < 10 then Char.ofNat (48 + n) else Char.ofNat (55 + n)

/-- Two uppercase hex digits of one byte (`%02X`). -/
def byteHex (b : Fin 256) : String :=
  String.mk [hexDigit (b.val / 16), hexDigit (b.val % 16)]

/-- `sprintf(macStr, "%02X:%02X:%02X:%02X:%02X:%02X", ...)` as used at
part_000 lines 5557-5560, 5604-5606, 5671-5676. -/
def macToStr (m : Mac) : String :=
  byteHex m.b0 ++ ":" ++ byteHex m.b1 ++ ":" ++ byteHex m.b2 ++ ":" ++
  byteHex m.b3 ++ ":" ++ byteHex m.b4 ++ ":" ++ byteHex m.b5

/-- `2^32`: the modulus of the sketch's 32-bit `unsigned int` arithmetic. -/
def UINT32_MOD : Nat := 4294967296

/-- `struct APClient` (part_000 lines 2279-2286). `ip` kept in its string
form. `totalBytes` is `unsigned int` in the source — 32-bit wrapping
arithmetic — represented as a `Nat` kept below `UINT32_MOD` by every write
site (initialised to 0; updated modulo `UINT32_MOD` by the capture
callback). -/
structure APClient where
  ip : String
  mac : Mac
  blocked : Bool
  totalBytes : Nat
  lastPacket : String
  lastSeen : Nat
deriving DecidableEq, Repr

/-- One entry of the driver's station table (`tcpip_adapter_sta_list_t`):
the station's IP (string form) and MAC. -/
structure Station where
  ip : String
  mac : Mac
deriving DecidableEq, Repr

/-- Side effects issued to the radio driver. -/
inductive DriverAction where
  /-- `esp_wifi_deauth_sta(aid)`: kick the station with this AID off the AP. -/
  | deauthSta (aid : Nat)
  /-- `esp_wifi_disconnect()`: drop the device's own station (uplink) connection. -/
  | disconnectSelfSta
deriving DecidableEq, Repr

/-- `bool isMACBlocked(const uint8_t* mac)` (part_000 lines 5602-5613):
format the six bytes with `%02X` separated by colons and compare the result,
with exact `String` equality, against each entry of `blockedMACs`. -/
def isMACBlocked (blockedMACs : List String) (mac : Mac) : Bool :=
  blockedMACs.any (fun blockedMAC => blockedMAC = macToStr mac)

/-- `void onStationConnected(...)` (part_000 lines 5814-5826): on a station
connect event, if the station's MAC is blocked, call `esp_wifi_disconnect()`
(the comment in the source notes there is no direct way to disconnect a
specific client). Returns the driver actions issued. -/
def onStationConnected (blockedMACs : List String) (mac : Mac) : List DriverAction :=
  if isMACBlocked blockedMACs mac then [DriverAction.disconnectSelfSta] else []

/-- The client record built for one station inside the loop of
`updateAPClients` (part_000 lines 5549-5569): fresh entry with
`totalBytes = 0`, empty `lastPacket`, `lastSeen = millis()`, and `blocked`
set by comparing the formatted MAC against `blockedMACs`. -/
def mkClient (blockedMACs : List String) (now : Nat) (s : Station) : APClient :=
  { ip := s.ip
    mac := s.mac
    blocked := isMACBlocked blockedMACs s.mac
    totalBytes := 0
    lastPacket := ""
    lastSeen := now }

/-- The deauth issued for one blocked station (part_000 lines 5571-5595):
both nested lookups scan the same freshly fetched station list for the first
index whose MAC matches, and `esp_wifi_deauth_sta(k + 1)` is called with that
index plus one as the AID. -/
def deauthActionsFor (stations : List Station) (s : Station) : List DriverAction :=
  match stations.findIdx? (fun t => t.mac = s.mac) with
  | some k => [DriverAction.deauthSta (k + 1)]
  | none => []

/-- `void updateAPClients()` (part_000 lines 5536-5599): clear `apClients`;
if the driver reports zero stations return the empty snapshot; otherwise
rebuild one `APClient` per station in order (annotating `blocked` from
`blockedMACs`) and, for each blocked station, issue a deauth for the first
station index with a matching MAC. Returns the new snapshot and the actions. -/
def updateAPClients (blockedMACs : List String) (stations : List Station)
    (now : Nat) : List APClient × List DriverAction :=
  if stations.length = 0 then ([], [])
  else
    (stations.map (mkClient blockedMACs now),
     (stations.filter (fun s => isMACBlocked blockedMACs s.mac)).flatMap
       (deauthActionsFor stations))

/-- An HTTP response: status code and body. -/
structure HttpResponse where
  code : Nat
  body : String
deriving DecidableEq, Repr

/-- The `/ap/block-mac` POST handler (part_000 lines 4131-4167): with no
`mac` parameter answer 400; otherwise (`action` defaults to block) either
append the raw parameter string to `blockedMACs` if it is not already
present, or erase its first occurrence, and answer 200. Persistence
(`saveBlockedMACs`) is a flash write with no effect on the in-memory set. -/
def blockMacHandler (blockedMACs : List String) (macParam : Option String)
    (actionParam : Option String) : List String × HttpResponse :=
  match macParam with
  | none => (blockedMACs, ⟨400, "\x7b\"error\":\"Missing MAC parameter\"\x7d"⟩)
  | some mac =>
    let block := match actionParam with
      | some a => a == "block"
      | none => true
    if block then
      let found := blockedMACs.any (fun blockedMAC => blockedMAC = mac)
      (if found then blockedMACs else blockedMACs ++ [mac], ⟨200, "\x7b\"success\":true\x7d"⟩)
    else
      (blockedMACs.erase mac, ⟨200, "\x7b\"success\":true\x7d"⟩)

/-- `#define MAX_PACKET_BUFFER 20` (part_000 line 2310). -/
def MAX_PACKET_BUFFER : Nat := 20

/-- `#define MAX_HONEYPOT_CONNECTIONS 10` (part_004 line 10). -/
def MAX_HONEYPOT_CONNECTIONS : Nat := 10

/-- `struct SniffedPacket` (part_000 lines 2315-2322). -/
structure SniffedPacket where
  sourceMAC : String
  destMAC : String
  type : String
  size : Nat
  rssi : Int
  timestamp : Nat
deriving DecidableEq, Repr

/-- `wifi_promiscuous_pkt_type_t`: management, data or control frame. -/
inductive PktType where
  | mgmt
  | data
  | ctrl
deriving DecidableEq, Repr

/-- The string the callback stores for each frame class
(part_000 line 5684). -/
def pktTypeStr : PktType → String
  | .mgmt => "MGMT"
  | .data => "DATA"
  | .ctrl => "CTRL"

/-- The fields of a promiscuous frame the callback reads: destination MAC at
payload offset 4, source MAC at offset 10, the frame type argument, and
`rx_ctrl`'s `sig_len` and `rssi`. -/
structure Frame where
  destMac : Mac
  srcMac : Mac
  pktType : PktType
  sigLen : Nat
  rssi : Int
deriving DecidableEq, Repr

/-- Append with capacity `n`, the pattern shared by the packet ring buffer
(part_000 lines 5690-5693: `if (size() >= MAX_PACKET_BUFFER) erase(begin());
push_back(packet)`) and the honeypot log (part_004 lines 151-160: shift all
records one slot down when full, then write at the freed last slot). -/
def pushCap (n : Nat) (l : List α) (x : α) : List α :=
  (if n ≤ l.length then l.tail else l) ++ [x]

/-- Modify the element at an index, leaving the list unchanged when the index
is out of range (models `apClients[i].field = ...` at a valid index). -/
def modifyIdx (l : List α) (i : Nat) (f : α → α) : List α :=
  match l, i with
  | [], _ => []
  | a :: as, 0 => f a :: as
  | a :: as, i + 1 => a :: modifyIdx as i f

/-- The mutable globals of the sketch that the capture engine and client
registry touch (part_000 lines 2629-2635). `currentSniffingMAC` is a
`uint8_t*` in the source, set from the target client's MAC array on start;
modelled as the pointed-to value. -/
structure SnifferState where
  apClients : List APClient
  blockedMACs : List String
  packetBuffer : List SniffedPacket
  isSniffing : Bool
  currentSniffingClient : Int
  currentSniffingMAC : Option Mac
deriving DecidableEq, Repr

/-- The packet record the callback builds for a matching frame
(part_000 lines 5666-5687). -/
def mkSniffRecord (f : Frame) (now : Nat) : SniffedPacket :=
  { sourceMAC := macToStr f.srcMac
    destMAC := macToStr f.destMac
    type := pktTypeStr f.pktType
    size := f.sigLen
    rssi := f.rssi
    timestamp := now }

/-- The `lastPacket` summary written for the sniffed client
(part_000 lines 5690-5695, `snprintf("To:%s Type:%s Size:%d", ...)`). -/
def packetInfoStr (f : Frame) : String :=
  "To:" ++ macToStr f.destMac ++ " Type:" ++ pktTypeStr f.pktType ++
  " Size:" ++ toString f.sigLen

/-- `void promiscuous_rx_callback(void* buf, wifi_promiscuous_pkt_type_t type)`
(part_000 lines 5641-5697): return immediately unless sniffing is active with
a non-negative target index; compare the frame's source MAC byte-for-byte
against `currentSniffingMAC`; on a match add `sig_len` to the target client's
`totalBytes` — a 32-bit `unsigned int`, so the sum wraps modulo
`UINT32_MOD` — append a record to the ring buffer evicting the oldest when
the buffer holds `MAX_PACKET_BUFFER` records, and refresh the target
client's `lastPacket`/`lastSeen`. -/
def promiscuous_rx_callback (st : SnifferState) (f : Frame) (now : Nat) :
    SnifferState :=
  if !st.isSniffing || st.currentSniffingClient < 0 then st
  else
    match st.currentSniffingMAC with
    | none => st
    | some target =>
      if f.srcMac ≠ target then st
      else
        let idx := st.currentSniffingClient.toNat
        let clients := modifyIdx st.apClients idx
          (fun c => { c with
            totalBytes := (c.totalBytes + f.sigLen) % UINT32_MOD })
        let buf := pushCap MAX_PACKET_BUFFER st.packetBuffer (mkSniffRecord f now)
        let clients := modifyIdx clients idx
          (fun c => { c with lastPacket := packetInfoStr f, lastSeen := now })
        { st with apClients := clients, packetBuffer := buf }

/-- `void startPacketSniffing(int clientIndex)` (part_000 lines 5616-5631):
when the index is within `apClients`, set `isSniffing`, install the
promiscuous callback, record the target index and the target client's MAC,
and set that client's `lastPacket` banner. No already-active check is made. -/
def startPacketSniffing (st : SnifferState) (clientIndex : Int) : SnifferState :=
  if 0 ≤ clientIndex ∧ clientIndex < st.apClients.length then
    let idx := clientIndex.toNat
    { st with
      isSniffing := true
      currentSniffingClient := clientIndex
      currentSniffingMAC := (st.apClients.get? idx).map (fun c => c.mac)
      apClients := modifyIdx st.apClients idx
        (fun c => { c with lastPacket := "Сниффинг активен..." }) }
  else st

/-- `void stopPacketSniffing()` (part_000 lines 5634-5638): clear the
sniffing flag, reset the target index to `-1`, disable promiscuous mode.
The target MAC pointer and the packet buffer are left as they are. -/
def stopPacketSniffing (st : SnifferState) : SnifferState :=
  { st with isSniffing := false, currentSniffingClient := -1 }

/-- The index-lookup loop of the `/ap/users/sniff` handler (part_000 lines
4074-4081): first `apClients` index whose IP string equals the parameter,
`-1` when there is none. -/
def findClientIndex (clients : List APClient) (ip : String) : Int :=
  match clients.findIdx? (fun c => c.ip == ip) with
  | some i => (i : Int)
  | none => -1

/-- The `/ap/users/sniff` POST handler (part_000 lines 4061-4094): 400
without an `ip` parameter; otherwise resolve the client index by comparing
the IP string, 404 if absent; `action=start` starts sniffing for that index
and answers 200 success, anything else stops sniffing and answers 200. -/
def sniffHandler (st : SnifferState) (ipParam : Option String)
    (actionParam : Option String) : SnifferState × HttpResponse :=
  match ipParam with
  | none => (st, ⟨400, "\x7b\"error\":\"Missing IP parameter\"\x7d"⟩)
  | some ip =>
    let start := match actionParam with
      | some a => a == "start"
      | none => false
    let clientIndex : Int := findClientIndex st.apClients ip
    if (0 : Int) ≤ clientIndex then
      if start then
        (startPacketSniffing st clientIndex,
         ⟨200, "\x7b\"success\":true,\"message\":\"Sniffing started\"\x7d"⟩)
      else
        (stopPacketSniffing st,
         ⟨200, "\x7b\"success\":true,\"message\":\"Sniffing stopped\"\x7d"⟩)
    else (st, ⟨404, "\x7b\"error\":\"User not found\"\x7d"⟩)

/-- `struct APConfig` (common_structures.h lines 75-81). -/
structure APConfig where
  mode : APMode
  ssid : String
  password : String
  hidden : Bool
  channel : Nat
deriving DecidableEq, Repr

/-- `struct SavedNetwork`: the credential fields used by the repeater
branch's password lookup. -/
structure SavedNetwork where
  ssid : String
  password : String
deriving DecidableEq, Repr

/-- The radio chip's interface mode as set by `WiFi.mode(...)`. -/
inductive WifiDevMode where
  | nullMode
  | sta
  | ap
  | apsta
deriving DecidableEq, Repr

/-- The parameters the running soft-AP was started with
(`WiFi.softAP(ssid, password, channel, hidden, maxConn)`). -/
structure APInstance where
  ssid : String
  password : String
  channel : Nat
  hidden : Bool
deriving DecidableEq, Repr

/-- `struct HoneypotConnection` (part_004 lines 13-18). -/
structure HoneypotConnection where
  clientIP : String
  port : Nat
  requestData : String
  timestamp : Nat
deriving DecidableEq, Repr

/-- The `Honeypot` object's own fields (part_004 lines 22-37): the live
prefix of the `connections` array (length `connectionCount`) and the AP
parameters it starts. -/
structure HoneypotObj where
  connections : List HoneypotConnection
  ssid : String
  channel : Nat
deriving DecidableEq, Repr

/-- The environment the radio driver presents during one
`updateAccessPointMode` call: whether the uplink station connection is up
(`WiFi.status() == WL_CONNECTED`), the uplink's SSID and channel
(`WiFi.SSID()`, `WiFi.channel()`), and the boolean the driver returns for
a `WiFi.softAP` bring-up issued during the call. -/
structure WiFiEnv where
  staConnected : Bool
  connectedSSID : String
  connectedChannel : Nat
  softAPOk : Bool
deriving DecidableEq, Repr

/-- The sketch's globals touched by the AP mode controller: the persisted
configuration, the radio interface mode, the running soft-AP (if any), the
saved networks, the honeypot object, whether the honeypot's deceptive
routes have been registered on the web server (part_004 `begin`; nothing in
the sketch ever unregisters them), and the capture-engine state. -/
structure CtrlState where
  apConfig : APConfig
  wifiDevMode : WifiDevMode
  softAPUp : Option APInstance
  savedNetworks : List SavedNetwork
  honeypot : HoneypotObj
  honeypotRoutesRegistered : Bool
  sniffer : SnifferState
deriving DecidableEq, Repr

/-- Result of one `updateAccessPointMode` call: the new state and whether
the final `saveConfiguration()` line was reached (the function's early
`return` statements skip it). -/
structure UpdateResult where
  st : CtrlState
  savedConfig : Bool
deriving DecidableEq, Repr

/-- `Honeypot::setChannel` (part_004 lines 122-126): accept only 1..13. -/
def honeypotSetChannel (h : HoneypotObj) (newChannel : Nat) : HoneypotObj :=
  if 1 ≤ newChannel ∧ newChannel ≤ 13 then { h with channel := newChannel } else h

/-- `Honeypot::begin` (part_004 lines 48-109) as it affects this state:
`WiFi.mode(WIFI_AP)`, an open (empty-password) soft-AP on the honeypot's
ssid/channel (result unchecked: the AP is up iff the driver call succeeds),
`connectionCount = 0`, and registration of the deceptive routes. -/
def honeypotBegin (st : CtrlState) (env : WiFiEnv) : CtrlState :=
  { st with
    wifiDevMode := .ap
    softAPUp := if env.softAPOk then
        some ⟨st.honeypot.ssid, "", st.honeypot.channel, false⟩
      else none
    honeypot := { st.honeypot with connections := [] }
    honeypotRoutesRegistered := true }

/-- The repeater branch's password lookup (part_000 lines 3069-3077): the
password of the first saved network whose ssid equals the uplink's, else "". -/
def lookupSavedPassword (nets : List SavedNetwork) (ssid : String) : String :=
  match nets.find? (fun network => network.ssid == ssid) with
  | some network => network.password
  | none => ""

/-- `void updateAccessPointMode()` (part_000 lines 2952-3130, the revision
beginning at line 2217), branching on `apConfig.mode`:
* OFF: if the radio is in AP or AP+STA mode, `softAPdisconnect` and switch
  to STA; then save.
* NORMAL with uplink: switch to AP+STA and bring up the configured AP; if
  `WiFi.softAP` returns false, print and return early (no save, no revert);
  otherwise run the DHCP/DNS/gateway reconfiguration (whose return codes the
  source ignores) and save. NORMAL without uplink: switch to AP and bring up
  the configured AP ignoring its result; save.
* HIDDEN: as NORMAL but with the hidden flag, and the bring-up result is
  ignored in both arms; save.
* REPEATER with uplink: mirror the uplink's SSID/channel with the saved
  password, switch to AP+STA and bring the AP up; if `WiFi.softAP` returns
  false, set `apConfig.mode = AP_MODE_NORMAL` and return early (no save);
  otherwise save. REPEATER without uplink: print "Cannot enable repeater
  mode" and return early, changing nothing (no save).
* HONEYPOT: push ssid/channel into the honeypot object and run its `begin`;
  save. -/
def updateAccessPointMode (st : CtrlState) (env : WiFiEnv) : UpdateResult :=
  match st.apConfig.mode with
  | .off =>
    let st := if st.wifiDevMode = .ap ∨ st.wifiDevMode = .apsta then
        { st with softAPUp := none, wifiDevMode := .sta }
      else st
    ⟨st, true⟩
  | .normal =>
    if env.staConnected then
      let st := { st with
        wifiDevMode := .apsta
        softAPUp := if env.softAPOk then
            some ⟨st.apConfig.ssid, st.apConfig.password, st.apConfig.channel, false⟩
          else none }
      if !env.softAPOk then ⟨st, false⟩
      else ⟨st, true⟩
    else
      ⟨{ st with
          wifiDevMode := .ap
          softAPUp := if env.softAPOk then
              some ⟨st.apConfig.ssid, st.apConfig.password, st.apConfig.channel, false⟩
            else none }, true⟩
  | .hidden =>
    let newMode := if env.staConnected then WifiDevMode.apsta else WifiDevMode.ap
    ⟨{ st with
        wifiDevMode := newMode
        softAPUp := if env.softAPOk then
            some ⟨st.apConfig.ssid, st.apConfig.password, st.apConfig.channel, true⟩
          else none }, true⟩
  | .repeater =>
    if env.staConnected then
      let connectedPassword := lookupSavedPassword st.savedNetworks env.connectedSSID
      let st := { st with
        wifiDevMode := .apsta
        softAPUp := if env.softAPOk then
            some ⟨env.connectedSSID, connectedPassword, env.connectedChannel, false⟩
          else none }
      if !env.softAPOk then
        ⟨{ st with apConfig := { st.apConfig with mode := .normal } }, false⟩
      else ⟨st, true⟩
    else ⟨st, false⟩
  | .honeypot =>
    let st := { st with honeypot :=
      (honeypotSetChannel { st.honeypot with ssid := st.apConfig.ssid }
        st.apConfig.channel) }
    ⟨honeypotBegin st env, true⟩

/-- A mode-change request as the HTTP layer and the on-device menu issue it
(part_000 lines 3333-3337 and 5141-5142): assign `apConfig.mode` and run
`updateAccessPointMode`. -/
def setAPMode (st : CtrlState) (m : APMode) (env : WiFiEnv) : UpdateResult :=
  updateAccessPointMode
    { st with apConfig := { st.apConfig with mode := m } } env

/-- The `/ap/config` POST handler (part_000 lines 3332-3359): optionally
update mode (only values 0..4), ssid, password and channel (only 1..13),
run `updateAccessPointMode`, and always answer `200 "AP settings updated"`
whatever the transition did. -/
def apModeOfNat (v : Nat) : APMode :=
  match v with
  | 0 => .off
  | 1 => .normal
  | 2 => .repeater
  | 3 => .hidden
  | _ => .honeypot

/-- Body of the `/ap/config` POST handler. -/
def apConfigHandler (st : CtrlState) (modeParam : Option Nat)
    (ssidParam : Option String) (passwordParam : Option String)
    (channelParam : Option Nat) (env : WiFiEnv) : UpdateResult × HttpResponse :=
  let cfg := st.apConfig
  let cfg := match modeParam with
    | some v => if v ≤ 4 then { cfg with mode := apModeOfNat v } else cfg
    | none => cfg
  let cfg := match ssidParam with
    | some s => { cfg with ssid := s }
    | none => cfg
  let cfg := match passwordParam with
    | some p => { cfg with password := p }
    | none => cfg
  let cfg := match channelParam with
    | some ch => if 1 ≤ ch ∧ ch ≤ 13 then { cfg with channel := ch } else cfg
    | none => cfg
  (updateAccessPointMode { st with apConfig := cfg } env,
   ⟨200, "AP settings updated"⟩)

/-- The pieces of an `AsyncWebServerRequest` that `Honeypot::logConnection`
reads: remote IP and port, URL, method string, headers and parameters. -/
structure HttpRequest where
  clientIP : String
  clientPort : Nat
  url : String
  method : String
  headers : List (String × String)
  params : List (String × String)
deriving DecidableEq, Repr

/-- The `requestData` string assembled by `Honeypot::logConnection`
(part_004 lines 167-187): the URL, then `" [" + method + "]"`, then one
`" name:value"` per header and one `" name=value"` per parameter. -/
def requestSummary (r : HttpRequest) : String :=
  r.url ++ " [" ++ r.method ++ "]"
  ++ String.join (r.headers.map (fun h => " " ++ h.1 ++ ":" ++ h.2))
  ++ String.join (r.params.map (fun p => " " ++ p.1 ++ "=" ++ p.2))

/-- The record `logConnection` writes for one request. -/
def mkHoneypotRecord (r : HttpRequest) (now : Nat) : HoneypotConnection :=
  { clientIP := r.clientIP
    port := r.clientPort
    requestData := requestSummary r
    timestamp := now }

/-- `Honeypot::logConnection` (part_004 lines 149-211) as it affects the
log: when `connectionCount` has reached `MAX_HONEYPOT_CONNECTIONS`, shift
every record one slot toward the front (dropping the oldest) and set the
count back to capacity minus one; then write the new record at index
`connectionCount` and increment the count. -/
def logConnection (log : List HoneypotConnection) (r : HttpRequest)
    (now : Nat) : List HoneypotConnection :=
  pushCap MAX_HONEYPOT_CONNECTIONS log (mkHoneypotRecord r now)

/-- The honeypot's `/login` handler (part_004 lines 96-106): log the
connection, then answer 403 with the fixed "Authentication Failed" page —
for every request, whatever credentials its parameters carry. -/
def loginHandler (log : List HoneypotConnection) (r : HttpRequest)
    (now : Nat) : List HoneypotConnection × HttpResponse :=
  (logConnection log r now,
   ⟨403, "<html><body><h1>Authentication Failed</h1>" ++
         "<p>Invalid username or password.</p>" ++
         "<a href=\x27/dashboard\x27>Try again</a>" ++
         "</body></html>"⟩)

/-- The earlier revision of `updateAccessPointMode` also present in the
repository (part_000 lines 556-600; identical in M5WiFiDebugger.ino lines
551-597): no uplink handling in NORMAL/HIDDEN, and a REPEATER request
without an uplink is degraded on the spot, `apConfig.mode = AP_MODE_NORMAL`
plus a normal AP bring-up whose result is ignored. Every branch falls
through to `saveConfiguration()`. -/
def updateAccessPointMode_v1 (st : CtrlState) (env : WiFiEnv) : UpdateResult :=
  match st.apConfig.mode with
  | .off =>
    let st := if st.wifiDevMode = .ap ∨ st.wifiDevMode = .apsta then
        { st with softAPUp := none, wifiDevMode := .sta }
      else st
    ⟨st, true⟩
  | .normal =>
    ⟨{ st with
        wifiDevMode := .ap
        softAPUp := if env.softAPOk then
            some ⟨st.apConfig.ssid, st.apConfig.password, st.apConfig.channel, false⟩
          else none }, true⟩
  | .hidden =>
    ⟨{ st with
        wifiDevMode := .ap
        softAPUp := if env.softAPOk then
            some ⟨st.apConfig.ssid, st.apConfig.password, st.apConfig.channel, true⟩
          else none }, true⟩
  | .repeater =>
    if env.staConnected then
      ⟨{ st with
          wifiDevMode := .apsta
          softAPUp := if env.softAPOk then
              some ⟨st.apConfig.ssid, st.apConfig.password, st.apConfig.channel, false⟩
            else none }, true⟩
    else
      ⟨{ st with
          apConfig := { st.apConfig with mode := .normal }
          wifiDevMode := .ap
          softAPUp := if env.softAPOk then
              some ⟨st.apConfig.ssid, st.apConfig.password, st.apConfig.channel, false⟩
            else none }, true⟩
  | .honeypot =>
    let st := { st with honeypot :=
      (honeypotSetChannel { st.honeypot with ssid := st.apConfig.ssid }
        st.apConfig.channel) }
    ⟨honeypotBegin st env, true⟩

/-! Concrete fixtures used by counterexamples and witnesses. -/

/-- The MAC address AA:BB:CC:DD:EE:FF as bytes. -/
def macAA : Mac := ⟨0xAA, 0xBB, 0xCC, 0xDD, 0xEE, 0xFF⟩

/-- The MAC address 11:22:33:44:55:66 as bytes. -/
def mac2 : Mac := ⟨0x11, 0x22, 0x33, 0x44, 0x55, 0x66⟩

/-- `macAA`'s canonical formatting, lowercased — as an operator might type
it into the `/ap/block-mac` form. -/
def lowMacStr : String := "aa:bb:cc:dd:ee:ff"

/-- `macAA`'s canonical formatting as `isMACBlocked` produces it. -/
def upMacStr : String := "AA:BB:CC:DD:EE:FF"

/-- A station with address `macAA` in the driver's station table. -/
def station1 : Station := ⟨"192.168.4.2", macAA⟩

/-- The boot-time AP configuration (part_000 line 2624). -/
def defaultConfig : APConfig := ⟨.off, "M5StickDebug", "12345678", false, 1⟩

/-- The capture-engine globals at boot (part_000 lines 2629-2635). -/
def defaultSniffer : SnifferState := ⟨[], [], [], false, -1, none⟩

/-- The controller state at boot. -/
def baseState : CtrlState :=
  ⟨defaultConfig, .sta, none, [], ⟨[], "HoneyPot", 1⟩, false, defaultSniffer⟩

/-- Driver environment with no uplink connection. -/
def envNoUplink : WiFiEnv := ⟨false, "", 1, true⟩

/-- Driver environment with an uplink but a failing soft-AP bring-up. -/
def envUplinkAPFail : WiFiEnv := ⟨true, "HomeNet", 6, false⟩

/-- A connected client at `macAA`. -/
def clientA : APClient := ⟨"192.168.4.2", macAA, false, 0, "", 0⟩

/-- A connected client at `mac2`. -/
def clientB : APClient := ⟨"192.168.4.3", mac2, false, 0, "", 0⟩

/-- Capture-engine state with an active session on `clientA` (index 0). -/
def sniffStA : SnifferState := ⟨[clientA, clientB], [], [], true, 0, some macAA⟩

/-- Controller state: AP serving, session on `clientA` active, honeypot
routes registered. -/
def c7State : CtrlState :=
  { baseState with
    wifiDevMode := .apsta
    softAPUp := some ⟨"M5StickDebug", "12345678", 1, false⟩
    honeypotRoutesRegistered := true
    sniffer := sniffStA }

/-- Capture-engine state with an active session on the sole client. -/
def c4St : SnifferState := ⟨[clientA], [], [], true, 0, some macAA⟩

/-- Twenty-one frames from the sniffing target, with distinct sizes and
timestamps. -/
def c4Frames : List (Frame × Nat) :=
  (List.range (MAX_PACKET_BUFFER + 1)).map
    (fun i => (⟨mac2, macAA, .data, i, 0⟩, i))

/-- A 500-byte frame from the sniffing target. -/
def c9Frame : Frame := ⟨mac2, macAA, .data, 500, -40⟩

/-- `clientA` with its observed-byte counter at the 32-bit maximum. -/
def clientW : APClient := { clientA with totalBytes := UINT32_MOD - 1 }

/-- Capture-engine state with an active session on `clientW`. -/
def stW : SnifferState := ⟨[clientW], [], [], true, 0, some macAA⟩

/-- The fixed body of the honeypot's failed-login response
(part_004 lines 101-105). -/
def honeypotFailBody : String :=
  "<html><body><h1>Authentication Failed</h1>" ++
  "<p>Invalid username or password.</p>" ++
  "<a href=\x27/dashboard\x27>Try again</a>" ++
  "</body></html>"

/-- A credential submission to the decoy login endpoint. -/
def loginReq : HttpRequest :=
  ⟨"192.168.4.100", 51000, "/login", "POST", [("Host", "192.168.4.1")],
   [("username", "admin"), ("password", "hunter2")]⟩

/-- Process a sequence of frames (with their arrival times) through the
promiscuous callback. -/
def processFrames (st : SnifferState) (frames : List (Frame × Nat)) :
    SnifferState :=
  frames.foldl (fun s p => promiscuous_rx_callback s p.1 p.2) st

/-- The record built for a frame/time pair. -/
def recordOf (p : Frame × Nat) : SniffedPacket :=
  mkSniffRecord p.1 p.2

/-! Helper lemmas. -/

theorem modifyIdx_get? (l : List α) (i j : Nat) (f : α → α) :
    (modifyIdx l i f).get? j = if i = j then (l.get? j).map f else l.get? j := by
  induction l generalizing i j with
  | nil => simp [modifyIdx]
  | cons a as ih =>
    cases i with
    | zero =>
      cases j with
      | zero => simp [modifyIdx]
      | succ j => simp [modifyIdx]
    | succ i =>
      cases j with
      | zero => simp [modifyIdx]
      | succ j => simpa [modifyIdx, Nat.succ_inj] using ih i j

theorem modifyIdx_length (l : List α) (i : Nat) (f : α → α) :
    (modifyIdx l i f).length = l.length := by
  induction l generalizing i with
  | nil => simp [modifyIdx]
  | cons a as ih =>
    cases i with
    | zero => simp [modifyIdx]
    | succ i => simp [modifyIdx, ih]

theorem pushCap_of_lt (n : Nat) (l : List α) (x : α) (h : l.length < n) :
    pushCap n l x = l ++ [x] := by
  unfold pushCap
  rw [if_neg (by omega)]

theorem pushCap_of_full (n : Nat) (l : List α) (x : α) (h : l.length = n) :
    pushCap n l x = l.drop 1 ++ [x] := by
  unfold pushCap
  rw [if_pos (by omega), List.drop_one]

theorem pushCap_length_eq (n : Nat) (l : List α) (x : α)
    (h : l.length ≤ n) (hn : 1 ≤ n) :
    (pushCap n l x).length = min (l.length + 1) n := by
  rcases Nat.lt_or_ge l.length n with hlt | hge
  · rw [pushCap_of_lt n l x hlt]
    simp only [List.length_append, List.length_singleton]
    omega
  · have hfull : l.length = n := Nat.le_antisymm h hge
    rw [pushCap_of_full n l x hfull]
    simp only [List.length_append, List.length_singleton, List.length_drop]
    omega

theorem pushCap_length_le (n : Nat) (l : List α) (x : α)
    (h : l.length ≤ n) (hn : 1 ≤ n) :
    (pushCap n l x).length ≤ n := by
  rw [pushCap_length_eq n l x h hn]
  omega

theorem cb_control (st : SnifferState) (f : Frame) (now : Nat) :
    (promiscuous_rx_callback st f now).isSniffing = st.isSniffing ∧
    (promiscuous_rx_callback st f now).currentSniffingClient
        = st.currentSniffingClient ∧
    (promiscuous_rx_callback st f now).currentSniffingMAC
        = st.currentSniffingMAC ∧
    (promiscuous_rx_callback st f now).blockedMACs = st.blockedMACs := by
  unfold promiscuous_rx_callback
  split
  · exact ⟨rfl, rfl, rfl, rfl⟩
  · split
    · exact ⟨rfl, rfl, rfl, rfl⟩
    · split
      · exact ⟨rfl, rfl, rfl, rfl⟩
      · exact ⟨rfl, rfl, rfl, rfl⟩

theorem cb_buffer_match (st : SnifferState) (f : Frame) (now : Nat) (t : Mac)
    (hs : st.isSniffing = true) (hc : ¬ st.currentSniffingClient < 0)
    (hm : st.currentSniffingMAC = some t) (hf : f.srcMac = t) :
    (promiscuous_rx_callback st f now).packetBuffer
      = pushCap MAX_PACKET_BUFFER st.packetBuffer (mkSniffRecord f now) := by
  unfold promiscuous_rx_callback
  simp [hs, hc, hm, hf]

theorem cb_buffer_le (st : SnifferState) (f : Frame) (now : Nat)
    (h : st.packetBuffer.length ≤ MAX_PACKET_BUFFER) :
    (promiscuous_rx_callback st f now).packetBuffer.length
      ≤ MAX_PACKET_BUFFER := by
  unfold promiscuous_rx_callback
  split
  · exact h
  · split
    · exact h
    · split
      · exact h
      · exact pushCap_length_le _ _ _ h (by norm_num [MAX_PACKET_BUFFER])

theorem processFrames_append (st : SnifferState)
    (a b : List (Frame × Nat)) :
    processFrames st (a ++ b) = processFrames (processFrames st a) b := by
  simp [processFrames, List.foldl_append]

theorem processFrames_control (st : SnifferState)
    (frames : List (Frame × Nat)) :
    (processFrames st frames).isSniffing = st.isSniffing ∧
    (processFrames st frames).currentSniffingClient
        = st.currentSniffingClient ∧
    (processFrames st frames).currentSniffingMAC = st.currentSniffingMAC := by
  induction frames generalizing st with
  | nil => exact ⟨rfl, rfl, rfl⟩
  | cons p ps ih =>
    have h1 := cb_control st p.1 p.2
    have h2 := ih (promiscuous_rx_callback st p.1 p.2)
    simp only [processFrames, List.foldl_cons] at h2 ⊢
    exact ⟨h2.1.trans h1.1, h2.2.1.trans h1.2.1, h2.2.2.trans h1.2.2.1⟩

theorem processFrames_buffer_fill (frames : List (Frame × Nat)) :
    ∀ (st : SnifferState) (t : Mac),
    st.isSniffing = true → ¬ st.currentSniffingClient < 0 →
    st.currentSniffingMAC = some t →
    (∀ p ∈ frames, p.1.srcMac = t) →
    st.packetBuffer.length + frames.length ≤ MAX_PACKET_BUFFER →
    (processFrames st frames).packetBuffer
      = st.packetBuffer ++ frames.map recordOf := by
  induction frames with
  | nil => intro st t _ _ _ _ _; simp [processFrames]
  | cons p ps ih =>
    intro st t hs hc hm hmatch hlen
    have hstep : (promiscuous_rx_callback st p.1 p.2).packetBuffer
        = st.packetBuffer ++ [mkSniffRecord p.1 p.2] := by
      rw [cb_buffer_match st p.1 p.2 t hs hc hm (hmatch p (by simp))]
      exact pushCap_of_lt _ _ _ (by simp at hlen; omega)
    have hctrl := cb_control st p.1 p.2
    have hrec := ih (promiscuous_rx_callback st p.1 p.2) t
      (hctrl.1.trans hs) (by rw [hctrl.2.1]; exact hc)
      (hctrl.2.2.1.trans hm)
      (fun q hq => hmatch q (by simp [hq]))
      (by rw [hstep]; simp at hlen ⊢; omega)
    simp only [processFrames, List.foldl_cons] at hrec ⊢
    rw [hrec, hstep]
    simp [recordOf]

theorem cb_clients_cases (st : SnifferState) (f : Frame) (now : Nat) :
    (promiscuous_rx_callback st f now).apClients = st.apClients ∨
    (promiscuous_rx_callback st f now).apClients
      = modifyIdx (modifyIdx st.apClients st.currentSniffingClient.toNat
          (fun c => { c with
            totalBytes := (c.totalBytes + f.sigLen) % UINT32_MOD }))
          st.currentSniffingClient.toNat
          (fun c => { c with lastPacket := packetInfoStr f, lastSeen := now }) := by
  unfold promiscuous_rx_callback
  split
  · exact Or.inl rfl
  · split
    · exact Or.inl rfl
    · split
      · exact Or.inl rfl
      · exact Or.inr rfl

/-! Claim theorems. -/

/-- C4: the packet-capture ring buffer never holds more than
MAX_PACKET_BUFFER = 20 records, and after processing 21 frames matching the
sniffing target from an empty buffer, the very first captured record has
been evicted and the buffer holds exactly the most recent 20 records in
arrival order. -/
theorem packet_buffer_ring_bound (st : SnifferState) (t : Mac)
    (frames : List (Frame × Nat))
    (hs : st.isSniffing = true) (hc : ¬ st.currentSniffingClient < 0)
    (hm : st.currentSniffingMAC = some t)
    (hb : st.packetBuffer = [])
    (hlen : frames.length = MAX_PACKET_BUFFER + 1)
    (hmatch : ∀ p ∈ frames, p.1.srcMac = t) :
    (processFrames st frames).packetBuffer = (frames.map recordOf).drop 1 ∧
    (processFrames st frames).packetBuffer.length = MAX_PACKET_BUFFER ∧
    ∀ (st2 : SnifferState) (f : Frame) (now : Nat),
      st2.packetBuffer.length ≤ MAX_PACKET_BUFFER →
      (promiscuous_rx_callback st2 f now).packetBuffer.length
        ≤ MAX_PACKET_BUFFER := by
  have hne : frames ≠ [] := by
    intro h
    rw [h] at hlen
    simp [MAX_PACKET_BUFFER] at hlen
  obtain ⟨fs, g, rfl⟩ : ∃ fs g, frames = fs ++ [g] :=
    ⟨frames.dropLast, frames.getLast hne,
     (List.dropLast_append_getLast hne).symm⟩
  have hfs_len : fs.length = MAX_PACKET_BUFFER := by
    rw [List.length_append, List.length_singleton] at hlen
    omega
  have hfill := processFrames_buffer_fill fs st t hs hc hm
    (fun p hp => hmatch p (List.mem_append_left _ hp))
    (by rw [hb, hfs_len]; simp)
  rw [hb, List.nil_append] at hfill
  have hctrl := processFrames_control st fs
  have hg : g.1.srcMac = t := hmatch g (List.mem_append_right _ (by simp))
  have hfull : (processFrames st fs).packetBuffer.length
      = MAX_PACKET_BUFFER := by
    rw [hfill, List.length_map, hfs_len]
  have hlast : (processFrames st (fs ++ [g])).packetBuffer
      = ((processFrames st fs).packetBuffer).drop 1 ++ [recordOf g] := by
    rw [processFrames_append]
    show (promiscuous_rx_callback (processFrames st fs)
        g.1 g.2).packetBuffer = _
    rw [cb_buffer_match _ _ _ t (hctrl.1.trans hs)
        (by rw [hctrl.2.1]; exact hc) (hctrl.2.2.trans hm) hg]
    exact pushCap_of_full _ _ _ hfull
  have hbuf : (processFrames st (fs ++ [g])).packetBuffer
      = ((fs ++ [g]).map recordOf).drop 1 := by
    rw [hlast, hfill, List.map_append, List.map_singleton,
        List.drop_append_of_le_length
          (by simp [List.length_map, hfs_len, MAX_PACKET_BUFFER])]
  refine ⟨hbuf, ?_, fun st2 f now h2 => cb_buffer_le st2 f now h2⟩
  rw [hbuf, List.length_drop, List.length_map, hlen]
  omega

/-- C4 witness: the theorem applied to twenty-one concrete data frames from
the target `macAA`. -/
theorem packet_buffer_ring_bound_witness :
    c4St.packetBuffer = [] ∧
    c4Frames.length = MAX_PACKET_BUFFER + 1 ∧
    (∀ p ∈ c4Frames, p.1.srcMac = macAA) ∧
    (processFrames c4St c4Frames).packetBuffer
      = (c4Frames.map recordOf).drop 1 ∧
    (processFrames c4St c4Frames).packetBuffer.length = MAX_PACKET_BUFFER ∧
    (promiscuous_rx_callback c4St c9Frame 7).packetBuffer.length
      ≤ MAX_PACKET_BUFFER := by
  have h := packet_buffer_ring_bound c4St macAA c4Frames rfl (by decide)
    rfl rfl (by decide) (by decide)
  exact ⟨rfl, by decide, by decide, h.1, h.2.1,
    h.2.2 c4St c9Frame 7 (by decide)⟩

/-- C1 counterexample: requesting Repeater mode with no uplink connected
does not degrade to Normal: the reported mode stays Repeater, no AP is
brought up, and the configuration is not saved. -/
theorem repeater_no_uplink_not_degraded_cex :
    (setAPMode baseState .repeater envNoUplink).st.apConfig.mode
        = APMode.repeater ∧
    (setAPMode baseState .repeater envNoUplink).st.apConfig.mode
        ≠ APMode.normal ∧
    (setAPMode baseState .repeater envNoUplink).st.softAPUp = none ∧
    (setAPMode baseState .repeater envNoUplink).savedConfig = false := by
  exact ⟨rfl, by decide, rfl, rfl⟩

/-- C1 amended: requesting Repeater mode with no uplink connected leaves
the reported mode at Repeater and changes nothing else — the function
returns early without bringing up an AP and without saving; the request is
neither degraded to Normal nor reported as a failure. (Only the earlier
revision of the controller, `updateAccessPointMode_v1`, degraded the
request to Normal.) -/
theorem repeater_no_uplink_keeps_repeater (st : CtrlState) (env : WiFiEnv)
    (h : env.staConnected = false) :
    (setAPMode st .repeater env).st.apConfig.mode = APMode.repeater ∧
    (setAPMode st .repeater env).st.softAPUp = st.softAPUp ∧
    (setAPMode st .repeater env).st.wifiDevMode = st.wifiDevMode ∧
    (setAPMode st .repeater env).st.sniffer = st.sniffer ∧
    (setAPMode st .repeater env).savedConfig = false := by
  simp [setAPMode, updateAccessPointMode, h]

/-- C1 witness: the amended theorem applied at the boot state with no
uplink. -/
theorem repeater_no_uplink_keeps_repeater_witness :
    envNoUplink.staConnected = false ∧
    ((setAPMode baseState .repeater envNoUplink).st.apConfig.mode
        = APMode.repeater ∧
     (setAPMode baseState .repeater envNoUplink).st.softAPUp
        = baseState.softAPUp ∧
     (setAPMode baseState .repeater envNoUplink).st.wifiDevMode
        = baseState.wifiDevMode ∧
     (setAPMode baseState .repeater envNoUplink).st.sniffer
        = baseState.sniffer ∧
     (setAPMode baseState .repeater envNoUplink).savedConfig = false) :=
  ⟨rfl, repeater_no_uplink_keeps_repeater baseState envNoUplink rfl⟩

/-- Context for C1: the earlier controller revision in the repository
(part_000 lines 556-600, M5WiFiDebugger.ino lines 551-597) did degrade a
Repeater request without an uplink to a normal AP, as the specification
describes. -/
theorem repeater_no_uplink_degraded_in_v1 (st : CtrlState) (env : WiFiEnv)
    (h : env.staConnected = false) :
    (updateAccessPointMode_v1
        { st with apConfig := { st.apConfig with mode := .repeater } }
        env).st.apConfig.mode = APMode.normal ∧
    (updateAccessPointMode_v1
        { st with apConfig := { st.apConfig with mode := .repeater } }
        env).savedConfig = true := by
  simp [updateAccessPointMode_v1, h]

/-- Witness for the v1 context lemma. -/
theorem repeater_no_uplink_degraded_in_v1_witness :
    envNoUplink.staConnected = false ∧
    ((updateAccessPointMode_v1
        { baseState with
          apConfig := { baseState.apConfig with mode := .repeater } }
        envNoUplink).st.apConfig.mode = APMode.normal ∧
     (updateAccessPointMode_v1
        { baseState with
          apConfig := { baseState.apConfig with mode := .repeater } }
        envNoUplink).savedConfig = true) :=
  ⟨rfl, repeater_no_uplink_degraded_in_v1 baseState envNoUplink rfl⟩

/-- C5 counterexample: with an uplink present and the driver's AP bring-up
failing, a Normal transition leaves the controller's mode at Normal (not
Off), a Repeater transition leaves it at Normal (not Off), and the HTTP
configuration handler still answers 200 "AP settings updated" — no failure
is surfaced to the caller. -/
theorem mode_transition_failure_not_off_cex :
    (setAPMode baseState .normal envUplinkAPFail).st.apConfig.mode
        ≠ APMode.off ∧
    (setAPMode baseState .normal envUplinkAPFail).st.apConfig.mode
        = APMode.normal ∧
    (setAPMode baseState .repeater envUplinkAPFail).st.apConfig.mode
        ≠ APMode.off ∧
    (setAPMode baseState .repeater envUplinkAPFail).st.apConfig.mode
        = APMode.normal ∧
    (apConfigHandler baseState (some 1) none none none envUplinkAPFail).2
        = ⟨200, "AP settings updated"⟩ := by
  exact ⟨by decide, rfl, by decide, rfl, rfl⟩

/-- C5 amended: when the checked AP bring-up call fails, the transition is
not reverted to Off and no failure is surfaced. A failed Normal bring-up
(with uplink) returns early with the mode still Normal, the radio left in
AP+STA mode and the configuration unsaved; a failed Repeater bring-up sets
the mode to Normal (not Off) and returns early unsaved; and the `/ap/config`
handler answers 200 regardless. -/
theorem mode_transition_failure_behavior (st : CtrlState) (env : WiFiEnv)
    (hsta : env.staConnected = true) (hfail : env.softAPOk = false) :
    (setAPMode st .normal env).st.apConfig.mode = APMode.normal ∧
    (setAPMode st .normal env).st.softAPUp = none ∧
    (setAPMode st .normal env).st.wifiDevMode = WifiDevMode.apsta ∧
    (setAPMode st .normal env).savedConfig = false ∧
    (setAPMode st .repeater env).st.apConfig.mode = APMode.normal ∧
    (setAPMode st .repeater env).st.softAPUp = none ∧
    (setAPMode st .repeater env).savedConfig = false ∧
    (apConfigHandler st (some 1) none none none env).2.code = 200 := by
  refine ⟨?_, ?_, ?_, ?_, ?_, ?_, ?_, rfl⟩ <;>
    simp [setAPMode, updateAccessPointMode, hsta, hfail]

/-- C5 witness: the amended theorem applied at the boot state with a
failing bring-up. -/
theorem mode_transition_failure_behavior_witness :
    envUplinkAPFail.staConnected = true ∧
    envUplinkAPFail.softAPOk = false ∧
    ((setAPMode baseState .normal envUplinkAPFail).st.apConfig.mode
        = APMode.normal ∧
     (setAPMode baseState .normal envUplinkAPFail).st.softAPUp = none ∧
     (setAPMode baseState .normal envUplinkAPFail).st.wifiDevMode
        = WifiDevMode.apsta ∧
     (setAPMode baseState .normal envUplinkAPFail).savedConfig = false ∧
     (setAPMode baseState .repeater envUplinkAPFail).st.apConfig.mode
        = APMode.normal ∧
     (setAPMode baseState .repeater envUplinkAPFail).st.softAPUp = none ∧
     (setAPMode baseState .repeater envUplinkAPFail).savedConfig = false ∧
     (apConfigHandler baseState (some 1) none none none
        envUplinkAPFail).2.code = 200) :=
  ⟨rfl, rfl, mode_transition_failure_behavior baseState envUplinkAPFail rfl rfl⟩

/-- C7 counterexample: transitioning to Off with an active sniffing session
and the honeypot responder registered tears down the AP but leaves the
sniffing session running and the honeypot routes registered. -/
theorem off_leaves_sniffing_active_cex :
    (setAPMode c7State .off envNoUplink).st.softAPUp = none ∧
    (setAPMode c7State .off envNoUplink).st.wifiDevMode = WifiDevMode.sta ∧
    (setAPMode c7State .off envNoUplink).st.sniffer.isSniffing = true ∧
    (setAPMode c7State .off envNoUplink).st.sniffer.isSniffing ≠ false ∧
    (setAPMode c7State .off envNoUplink).st.honeypotRoutesRegistered
        = true := by
  exact ⟨rfl, rfl, rfl, by decide, rfl⟩

/-- C7 amended: transitioning to Off tears down the AP radio and leaves the
radio in station-only mode whenever an AP interface was active, but it does
not stop an active sniffing session (the capture-engine state, including
`isSniffing` and the installed promiscuous hook, is untouched) and does not
deactivate the honeypot responder (whose routes stay registered; the
Honeypot class has no deactivation method). -/
theorem off_teardown_behavior (st : CtrlState) (env : WiFiEnv)
    (h : st.wifiDevMode = WifiDevMode.ap ∨ st.wifiDevMode = WifiDevMode.apsta) :
    (setAPMode st .off env).st.softAPUp = none ∧
    (setAPMode st .off env).st.wifiDevMode = WifiDevMode.sta ∧
    (setAPMode st .off env).st.sniffer = st.sniffer ∧
    (setAPMode st .off env).st.honeypotRoutesRegistered
        = st.honeypotRoutesRegistered ∧
    (setAPMode st .off env).st.honeypot = st.honeypot ∧
    (setAPMode st .off env).savedConfig = true := by
  rcases h with h | h <;> simp [setAPMode, updateAccessPointMode, h]

/-- C7 witness: the amended theorem applied at a state with an AP serving,
an active sniffing session, and registered honeypot routes. -/
theorem off_teardown_behavior_witness :
    (c7State.wifiDevMode = WifiDevMode.ap ∨
     c7State.wifiDevMode = WifiDevMode.apsta) ∧
    ((setAPMode c7State .off envNoUplink).st.softAPUp = none ∧
     (setAPMode c7State .off envNoUplink).st.wifiDevMode = WifiDevMode.sta ∧
     (setAPMode c7State .off envNoUplink).st.sniffer = c7State.sniffer ∧
     (setAPMode c7State .off envNoUplink).st.honeypotRoutesRegistered
        = c7State.honeypotRoutesRegistered ∧
     (setAPMode c7State .off envNoUplink).st.honeypot = c7State.honeypot ∧
     (setAPMode c7State .off envNoUplink).savedConfig = true) :=
  ⟨Or.inr rfl, off_teardown_behavior c7State envNoUplink (Or.inr rfl)⟩

/-- C2 counterexample: with a session already active on `clientA`, a second
start request for `clientB` succeeds (HTTP 200 "Sniffing started") and
replaces the existing session's target MAC — it does not fail and does not
leave the target unchanged. -/
theorem second_startSniffing_succeeds_cex :
    sniffStA.isSniffing = true ∧
    (sniffHandler sniffStA (some "192.168.4.3") (some "start")).2.code
        = 200 ∧
    (sniffHandler sniffStA (some "192.168.4.3")
        (some "start")).1.currentSniffingMAC = some mac2 ∧
    sniffStA.currentSniffingMAC = some macAA ∧
    (sniffHandler sniffStA (some "192.168.4.3")
        (some "start")).1.currentSniffingMAC
      ≠ sniffStA.currentSniffingMAC := by
  exact ⟨rfl, rfl, by decide, rfl, by decide⟩

/-- C2 amended: a `startSniffing` request while a session is active does not
fail: the handler answers 200 "Sniffing started" and the session is simply
retargeted — `isSniffing` stays true and the target index and MAC become
those of the newly requested client. There is no already-active check. -/
theorem startSniffing_replaces_active_session (st : SnifferState)
    (ip : String) (i : Nat)
    (_hsn : st.isSniffing = true)
    (hfind : st.apClients.findIdx? (fun c => c.ip == ip) = some i)
    (hi : i < st.apClients.length) :
    (sniffHandler st (some ip) (some "start")).2
      = ⟨200, "\x7b\"success\":true,\"message\":\"Sniffing started\"\x7d"⟩ ∧
    (sniffHandler st (some ip) (some "start")).1
      = startPacketSniffing st (i : Int) ∧
    (startPacketSniffing st (i : Int)).isSniffing = true ∧
    (startPacketSniffing st (i : Int)).currentSniffingClient = (i : Int) ∧
    (startPacketSniffing st (i : Int)).currentSniffingMAC
      = (st.apClients.get? i).map APClient.mac := by
  have hpos : ((0 : Int) ≤ (i : Int)) := Int.natCast_nonneg i
  have hlt : ((i : Int) < (st.apClients.length : Int)) := by exact_mod_cast hi
  refine ⟨?_, ?_, ?_, ?_, ?_⟩
  · simp [sniffHandler, findClientIndex, hfind]
  · simp [sniffHandler, findClientIndex, hfind]
  · unfold startPacketSniffing
    rw [if_pos ⟨hpos, hlt⟩]
  · unfold startPacketSniffing
    rw [if_pos ⟨hpos, hlt⟩]
  · unfold startPacketSniffing
    rw [if_pos ⟨hpos, hlt⟩]
    simp

/-- C2 witness: the amended theorem applied to the concrete two-client
state with an active session on index 0 and a start request for the second
client's IP. -/
theorem startSniffing_replaces_active_session_witness :
    sniffStA.isSniffing = true ∧
    sniffStA.apClients.findIdx? (fun c => c.ip == "192.168.4.3") = some 1 ∧
    1 < sniffStA.apClients.length ∧
    ((sniffHandler sniffStA (some "192.168.4.3") (some "start")).2
      = ⟨200, "\x7b\"success\":true,\"message\":\"Sniffing started\"\x7d"⟩ ∧
     (sniffHandler sniffStA (some "192.168.4.3") (some "start")).1
      = startPacketSniffing sniffStA ((1 : Nat) : Int) ∧
     (startPacketSniffing sniffStA ((1 : Nat) : Int)).isSniffing = true ∧
     (startPacketSniffing sniffStA ((1 : Nat) : Int)).currentSniffingClient
      = ((1 : Nat) : Int) ∧
     (startPacketSniffing sniffStA ((1 : Nat) : Int)).currentSniffingMAC
      = (sniffStA.apClients.get? 1).map APClient.mac) :=
  ⟨rfl, by decide, by decide,
   startSniffing_replaces_active_session sniffStA "192.168.4.3" 1 rfl
     (by decide) (by decide)⟩

/-- C3 counterexample: with AA:BB:CC:DD:EE:FF in the blocked set and that
station connecting, the admission hook's only driver action is
`esp_wifi_disconnect()` — which drops the device's own uplink interface,
not the connecting station — and the next refresh still lists a client with
that MAC (annotated blocked). -/
theorem blocked_admission_disconnects_uplink_cex :
    isMACBlocked [upMacStr] macAA = true ∧
    onStationConnected [upMacStr] macAA
        = [DriverAction.disconnectSelfSta] ∧
    (updateAPClients [upMacStr] [station1] 6).1.map APClient.mac
        = [macAA] ∧
    (updateAPClients [upMacStr] [station1] 6).1.map APClient.blocked
        = [true] := by
  decide

/-- C3 amended: when a blocked station connects, the admission hook fires
immediately but issues `esp_wifi_disconnect()` (dropping the device's own
station/uplink interface) rather than an administrative disconnect of the
connecting station; the next refresh still lists that client, annotated
`blocked = true` (the per-station deauth happens during the refresh
itself). -/
theorem blocked_admission_hook_behavior (blockedMACs : List String)
    (mac : Mac) (h : isMACBlocked blockedMACs mac = true) :
    onStationConnected blockedMACs mac = [DriverAction.disconnectSelfSta] ∧
    ∀ (stations : List Station) (now : Nat) (s : Station),
      s ∈ stations → s.mac = mac →
      mkClient blockedMACs now s
          ∈ (updateAPClients blockedMACs stations now).1 ∧
      (mkClient blockedMACs now s).blocked = true := by
  refine ⟨by simp [onStationConnected, h], ?_⟩
  intro stations now s hs hmac
  constructor
  · unfold updateAPClients
    rw [if_neg (by
      intro h0
      rw [List.length_eq_zero] at h0
      subst h0
      exact absurd hs (List.not_mem_nil s))]
    exact List.mem_map_of_mem _ hs
  · simp [mkClient, hmac, h]

/-- C3 witness: the amended theorem applied to the blocked station `macAA`. -/
theorem blocked_admission_hook_behavior_witness :
    isMACBlocked [upMacStr] macAA = true ∧
    station1 ∈ [station1] ∧
    station1.mac = macAA ∧
    (onStationConnected [upMacStr] macAA
        = [DriverAction.disconnectSelfSta] ∧
     (mkClient [upMacStr] 6 station1
        ∈ (updateAPClients [upMacStr] [station1] 6).1 ∧
      (mkClient [upMacStr] 6 station1).blocked = true)) :=
  ⟨by decide, by decide, rfl,
   (blocked_admission_hook_behavior [upMacStr] macAA (by decide)).1,
   (blocked_admission_hook_behavior [upMacStr] macAA (by decide)).2
     [station1] 6 station1 (by decide) rfl⟩

/-- C9 counterexample: the capture callback raises `clientA`'s observed
byte counter to 500, but a subsequent registry refresh — with the same
station still in the driver's table — rebuilds the entry with
`totalBytes = 0`, a strict decrease for a client that remains connected. -/
theorem refresh_resets_totalBytes_cex :
    (promiscuous_rx_callback c4St c9Frame 7).apClients.map
        APClient.totalBytes = [500] ∧
    (promiscuous_rx_callback c4St c9Frame 7).apClients.map APClient.mac
        = [macAA] ∧
    (updateAPClients [] [station1] 8).1.map APClient.totalBytes = [0] ∧
    (updateAPClients [] [station1] 8).1.map APClient.mac = [macAA] ∧
    (0 : Nat) < 500 := by
  decide

/-- C9 amended: a registry refresh rebuilds every entry with
`totalBytes = 0`, discarding the accumulated history of clients that remain
connected; the capture callback either leaves a client's counter unchanged
or sets the target's counter to the 32-bit wrapped sum
`(totalBytes + sig_len) % 2^32` (the field is `unsigned int`), which is
non-decreasing exactly while that sum does not wrap. -/
theorem totalBytes_monotone_between_refreshes :
    (∀ (st : SnifferState) (f : Frame) (now i : Nat) (c : APClient),
      st.apClients.get? i = some c →
      ∃ c', (promiscuous_rx_callback st f now).apClients.get? i = some c' ∧
        (c'.totalBytes = c.totalBytes ∨
         c'.totalBytes = (c.totalBytes + f.sigLen) % UINT32_MOD) ∧
        (c.totalBytes + f.sigLen < UINT32_MOD →
          c.totalBytes ≤ c'.totalBytes)) ∧
    (∀ (blockedMACs : List String) (stations : List Station) (now : Nat),
      ∀ c ∈ (updateAPClients blockedMACs stations now).1,
        c.totalBytes = 0) := by
  constructor
  · intro st f now i c hget
    rcases cb_clients_cases st f now with hcase | hcase
    · exact ⟨c, by rw [hcase, hget], Or.inl rfl, fun _ => Nat.le_refl _⟩
    · by_cases hidx : st.currentSniffingClient.toNat = i
      · subst hidx
        refine ⟨{ c with
            totalBytes := (c.totalBytes + f.sigLen) % UINT32_MOD
            lastPacket := packetInfoStr f
            lastSeen := now }, ?_, Or.inr rfl, ?_⟩
        · rw [hcase, modifyIdx_get?, if_pos rfl, modifyIdx_get?,
            if_pos rfl, hget]
          rfl
        · intro hlt
          show c.totalBytes ≤ (c.totalBytes + f.sigLen) % UINT32_MOD
          rw [Nat.mod_eq_of_lt hlt]
          exact Nat.le_add_right _ _
      · exact ⟨c, by
          rw [hcase, modifyIdx_get?, if_neg hidx, modifyIdx_get?,
            if_neg hidx, hget], Or.inl rfl, fun _ => Nat.le_refl _⟩
  · intro blockedMACs stations now c hc
    unfold updateAPClients at hc
    split at hc
    · exact absurd hc (List.not_mem_nil c)
    · obtain ⟨s, _, rfl⟩ := List.mem_map.mp hc
      rfl

/-- C9 witness: both parts of the amended theorem at concrete inputs,
together with a concrete wraparound — the callback applied to a client whose
counter sits at the 32-bit maximum lowers it from 4294967295 to 499. -/
theorem totalBytes_monotone_between_refreshes_witness :
    c4St.apClients.get? 0 = some clientA ∧
    (∃ c', (promiscuous_rx_callback c4St c9Frame 7).apClients.get? 0
        = some c' ∧
        (c'.totalBytes = clientA.totalBytes ∨
         c'.totalBytes
            = (clientA.totalBytes + c9Frame.sigLen) % UINT32_MOD) ∧
        (clientA.totalBytes + c9Frame.sigLen < UINT32_MOD →
          clientA.totalBytes ≤ c'.totalBytes)) ∧
    (mkClient [] 8 station1 ∈ (updateAPClients [] [station1] 8).1 →
      (mkClient [] 8 station1).totalBytes = 0) ∧
    (promiscuous_rx_callback stW c9Frame 7).apClients.map
        APClient.totalBytes = [499] ∧
    (499 : Nat) < clientW.totalBytes :=
  ⟨rfl,
   totalBytes_monotone_between_refreshes.1 c4St c9Frame 7 0 clientA rfl,
   totalBytes_monotone_between_refreshes.2 [] [station1] 8
     (mkClient [] 8 station1),
   by decide,
   by decide⟩

/-- C10: blocked-address matching is an exact, case-sensitive string
comparison against the uppercase colon-separated formatting of the station
MAC: a lowercase entry "aa:bb:cc:dd:ee:ff" is stored verbatim by the
block handler but never matches the bytes AA:BB:CC:DD:EE:FF, so such an
entry triggers neither the admission hook nor the blocked flag or deauth at
refresh — while the uppercase spelling matches. -/
theorem mac_matching_case_sensitive :
    macToStr macAA = upMacStr ∧
    (blockMacHandler [] (some lowMacStr) (some "block")).1 = [lowMacStr] ∧
    isMACBlocked [lowMacStr] macAA = false ∧
    onStationConnected [lowMacStr] macAA = [] ∧
    (updateAPClients [lowMacStr] [station1] 6).1.map APClient.blocked
        = [false] ∧
    (updateAPClients [lowMacStr] [station1] 6).2 = [] ∧
    isMACBlocked [upMacStr] macAA = true := by
  decide

/-- C8: blocking an address (its canonical formatted MAC string, via the
`/ap/block-mac` handler) makes the pure lookup `isMACBlocked` — which a
subsequent refresh does not perturb, since `updateAPClients` only reads the
set — return true for those bytes; and in every refreshed snapshot a
client's `blocked` flag is true exactly when its formatted MAC is in the
persisted blocked set, independently of the client's ephemeral fields. -/
theorem block_then_refresh_isBlocked (blockedMACs : List String)
    (addr : Mac) (stations : List Station) (now : Nat) :
    isMACBlocked
      (blockMacHandler blockedMACs (some (macToStr addr)) (some "block")).1
      addr = true ∧
    ∀ c ∈ (updateAPClients blockedMACs stations now).1,
      (c.blocked = true ↔ macToStr c.mac ∈ blockedMACs) := by
  constructor
  · by_cases hf :
        blockedMACs.any (fun blockedMAC => blockedMAC = macToStr addr)
    · simp [blockMacHandler, hf, isMACBlocked]
    · simp [blockMacHandler, hf, isMACBlocked, List.any_append]
  · intro c hc
    unfold updateAPClients at hc
    split at hc
    · exact absurd hc (List.not_mem_nil c)
    · obtain ⟨s, _, rfl⟩ := List.mem_map.mp hc
      simp [mkClient, isMACBlocked, List.any_eq_true]

/-- C8 witness: the theorem at the concrete address `macAA` with one
connected station. -/
theorem block_then_refresh_isBlocked_witness :
    isMACBlocked
      (blockMacHandler [upMacStr] (some (macToStr macAA)) (some "block")).1
      macAA = true ∧
    mkClient [upMacStr] 6 station1
        ∈ (updateAPClients [upMacStr] [station1] 6).1 ∧
    ((mkClient [upMacStr] 6 station1).blocked = true ↔
      macToStr (mkClient [upMacStr] 6 station1).mac ∈ [upMacStr]) :=
  ⟨(block_then_refresh_isBlocked [upMacStr] macAA [station1] 6).1,
   by decide,
   (block_then_refresh_isBlocked [upMacStr] macAA [station1] 6).2
     (mkClient [upMacStr] 6 station1) (by decide)⟩

/-- C6: every request to the honeypot's decoy login endpoint receives the
fixed 403 authentication-failure response regardless of the submitted
credentials, appends exactly one record to the connection log, and the log
is a FIFO of capacity MAX_HONEYPOT_CONNECTIONS = 10: at capacity the oldest
record is evicted before the new one is appended. -/
theorem honeypot_login_logs_and_fails (log : List HoneypotConnection)
    (r : HttpRequest) (now : Nat)
    (hcap : log.length ≤ MAX_HONEYPOT_CONNECTIONS) :
    (loginHandler log r now).2 = ⟨403, honeypotFailBody⟩ ∧
    (loginHandler log r now).1
      = (if log.length = MAX_HONEYPOT_CONNECTIONS then log.drop 1 else log)
        ++ [mkHoneypotRecord r now] ∧
    (loginHandler log r now).1.length
      = min (log.length + 1) MAX_HONEYPOT_CONNECTIONS := by
  refine ⟨rfl, ?_, ?_⟩
  · show pushCap MAX_HONEYPOT_CONNECTIONS log (mkHoneypotRecord r now) = _
    by_cases hful : log.length = MAX_HONEYPOT_CONNECTIONS
    · rw [if_pos hful, pushCap_of_full _ _ _ hful]
    · rw [if_neg hful, pushCap_of_lt _ _ _ (by omega)]
  · show (pushCap MAX_HONEYPOT_CONNECTIONS log
        (mkHoneypotRecord r now)).length = _
    exact pushCap_length_eq _ _ _ hcap
      (by norm_num [MAX_HONEYPOT_CONNECTIONS])

/-- C6 witness: the theorem applied to an empty log and a concrete
credential submission. -/
theorem honeypot_login_logs_and_fails_witness :
    ([] : List HoneypotConnection).length ≤ MAX_HONEYPOT_CONNECTIONS ∧
    ((loginHandler [] loginReq 3).2 = ⟨403, honeypotFailBody⟩ ∧
     (loginHandler [] loginReq 3).1
      = (if ([] : List HoneypotConnection).length
            = MAX_HONEYPOT_CONNECTIONS
         then ([] : List HoneypotConnection).drop 1
         else []) ++ [mkHoneypotRecord loginReq 3] ∧
     (loginHandler [] loginReq 3).1.length
      = min (([] : List HoneypotConnection).length + 1)
          MAX_HONEYPOT_CONNECTIONS) :=
  ⟨by decide, honeypot_login_logs_and_fails [] loginReq 3 (by decide)⟩

end M5WiFiDebugger
